import Mathlib

/-!
Verification of the CoinJoin RPC control surface of `src/rpc/coinjoin.cpp`:
a shallow embedding of the `coinjoin start`, `coinjoin stop`, `coinjoin reset`
handlers and of `getcoinjoininfo`, over an explicit request environment.

The wallet-side client manager (`StartMixing`, `StopMixing`, `IsMixing`,
`ResetPool`, `DoAutomaticDenominating`, `GetStatuses`, `GetJsonInfo`), the
global client options object and the server pool's `GetJsonInfo` live in
`coinjoin/client.*`, `coinjoin/options.*` and `coinjoin/server.*`, which are
outside the visible source; those operations are modelled from the spec and
say so in their doc comments.  Everything else is translated directly from
`src/rpc/coinjoin.cpp`.
-/

/-- A JSON value as produced by the RPC layer (`UniValue`).  Objects keep
their key/value pairs in insertion order, matching `pushKV`. -/
inductive UniValue where
  | vnull : UniValue
  | vbool : Bool → UniValue
  | vnum : Int → UniValue
  | vstr : String → UniValue
  | varr : List UniValue → UniValue
  | vobj : List (String × UniValue) → UniValue

/-- The RPC error codes appearing in `src/rpc/coinjoin.cpp`. -/
inductive RPCErrorCode where
  | RPC_INTERNAL_ERROR : RPCErrorCode
  | RPC_WALLET_UNLOCK_NEEDED : RPCErrorCode
  | RPC_INVALID_PARAMETER : RPCErrorCode
  | RPC_METHOD_DEPRECATED : RPCErrorCode
deriving DecidableEq

/-- A `JSONRPCError` thrown by a handler: error code plus human-readable
reason string. -/
structure JSONRPCError where
  code : RPCErrorCode
  message : String
deriving DecidableEq

/-- The wallet facts the handlers consult: its name (used to look up the
per-wallet client manager), `IsLocked(true)`, `IsLegacy()` and the
`nKeysLeftSinceAutoBackup` counter. -/
structure Wallet where
  name : String
  isLocked : Bool
  isLegacy : Bool
  nKeysLeftSinceAutoBackup : Int

/-- One client-side mixing session as reported by the client manager's
`GetJsonInfo` (spec section 6: masternode identity, outpoint, service
address, denomination, state, entries_count). -/
structure CJSession where
  protxhash : String
  outpoint : String
  service : String
  denomination : Int
  state : String
  entries_count : Int

/-- Modelled from the spec: the per-wallet client manager
(`CCoinJoinClientManager`, outside the visible source).  It carries the
mixing-enabled flag flipped by `StartMixing`/`StopMixing`, the list of
in-flight sessions, and the aggregated status string returned by
`GetStatuses().original`. -/
structure CoinJoinClientManager where
  fMixing : Bool
  sessions : List CJSession
  statuses : String

/-- Modelled from the spec: `StartMixing()` "transitions the manager from
disabled to enabled.  Fails (no-op, returns false) if already enabled". -/
def CoinJoinClientManager.StartMixing (m : CoinJoinClientManager) :
    Bool × CoinJoinClientManager :=
  if m.fMixing then (false, m) else (true, { m with fMixing := true })

/-- Modelled from the spec: `IsMixing()` reports whether mixing is currently
running for this wallet. -/
def CoinJoinClientManager.IsMixing (m : CoinJoinClientManager) : Bool :=
  m.fMixing

/-- Modelled from the spec: `StopMixing()` "disables further session
creation". -/
def CoinJoinClientManager.StopMixing (m : CoinJoinClientManager) :
    CoinJoinClientManager :=
  { m with fMixing := false }

/-- Modelled from the spec: `ResetPool()` "unconditionally aborts every
active Session for this wallet, releases all reservations, and clears
accumulated round-progress bookkeeping; always succeeds (idempotent)". -/
def CoinJoinClientManager.ResetPool (m : CoinJoinClientManager) :
    CoinJoinClientManager :=
  { m with sessions := [] }

/-- Modelled from the spec: `GetStatuses().original`, the manager's
aggregated human-readable status string. -/
def CoinJoinClientManager.GetStatuses (m : CoinJoinClientManager) : String :=
  m.statuses

/-- Modelled from the spec: the process-wide client configuration
(`CCoinJoinClientOptions`, outside the visible source) surfaced by its
`GetJsonInfo`. -/
structure ClientOptions where
  enabled : Bool
  multisession : Bool
  max_sessions : Int
  max_rounds : Int
  max_amount : Int
  denoms_goal : Int
  denoms_hardcap : Int

/-- Modelled from the spec: the masternode-side pool snapshot surfaced by
the server's `GetJsonInfo` — {queue_size, denomination, state,
entries_count}. -/
structure ServerPool where
  queue_size : Int
  denomination : Int
  state : String
  entries_count : Int

/-- Modelled from the spec: the legacy-keypool depletion warning threshold
`COINJOIN_KEYS_THRESHOLD_WARNING` (declared outside the visible source);
its exact numeric value does not affect the properties proved here. -/
def COINJOIN_KEYS_THRESHOLD_WARNING : Int := 100

/-- The request environment a handler invocation observes:
`GetWalletForJSONRPCRequest` (resolved wallet, if any), `node.mn_activeman`,
the `-enablecoinjoin` command-line flag, the per-wallet client manager
returned by `walletman().Get(wallet->GetName())`, an oracle for
`DoAutomaticDenominating` (its result and its effect on the sessions and
status string — it does not touch the `fMixing` flag, which only
`StartMixing`/`StopMixing` flip), the client options, the queue manager's
`GetQueueSize()` and the server-side pool. -/
structure Env where
  wallet_opt : Option Wallet
  mn_activeman : Bool
  enableCoinJoinArg : Bool
  clientman : CoinJoinClientManager
  doAutoDenom : List CJSession → String → Bool × List CJSession × String
  options : ClientOptions
  queueSize : Int
  serverPool : ServerPool

/-- `ValidateCoinJoinArguments` from `src/rpc/coinjoin.cpp` lines 26-39:
ok when `CCoinJoinClientOptions::IsEnabled()`, otherwise an error that
distinguishes `-enablecoinjoin=0` from an internal failure. -/
def ValidateCoinJoinArguments (env : Env) : Except JSONRPCError Unit :=
  if env.options.enabled then
    .ok ()
  else if !env.enableCoinJoinArg then
    .error ⟨.RPC_INTERNAL_ERROR,
      "Mixing is disabled via -enablecoinjoin=0 command line option, remove it to enable mixing again"⟩
  else
    .error ⟨.RPC_INTERNAL_ERROR, "Mixing is disabled due to an internal error"⟩

/-- Result of running one of the `coinjoin` control handlers: the JSON
outcome (a thrown `JSONRPCError` or a returned `UniValue`), the final state
of the client manager, and instrumentation recording which source
operations actually executed (used to state ordering and no-mutation
properties). -/
structure ExecResult where
  outcome : Except JSONRPCError UniValue
  clientman : CoinJoinClientManager
  checkedMasternodeRole : Bool := false
  checkedMixingEnabled : Bool := false
  checkedWalletLock : Bool := false
  startMixingCalls : Nat := 0
  stopMixingCalls : Nat := 0
  resetPoolCalls : Nat := 0
  doAutoDenomCalls : Nat := 0

/-- The `coinjoin reset` handler, translated from `src/rpc/coinjoin.cpp`
lines 73-93. -/
def coinjoin_reset (env : Env) : ExecResult :=
  match env.wallet_opt with
  | none => { outcome := .ok .vnull, clientman := env.clientman }
  | some _wallet =>
    if env.mn_activeman then
      { outcome := .error ⟨.RPC_INTERNAL_ERROR,
          "Client-side mixing is not supported on masternodes"⟩,
        clientman := env.clientman,
        checkedMasternodeRole := true }
    else
      match ValidateCoinJoinArguments env with
      | .error e =>
        { outcome := .error e, clientman := env.clientman,
          checkedMasternodeRole := true, checkedMixingEnabled := true }
      | .ok _ =>
        { outcome := .ok (.vstr "Mixing was reset"),
          clientman := env.clientman.ResetPool,
          checkedMasternodeRole := true, checkedMixingEnabled := true,
          resetPoolCalls := 1 }

/-- The `coinjoin start` handler, translated from `src/rpc/coinjoin.cpp`
lines 110-142. -/
def coinjoin_start (env : Env) : ExecResult :=
  match env.wallet_opt with
  | none => { outcome := .ok .vnull, clientman := env.clientman }
  | some wallet =>
    if env.mn_activeman then
      { outcome := .error ⟨.RPC_INTERNAL_ERROR,
          "Client-side mixing is not supported on masternodes"⟩,
        clientman := env.clientman,
        checkedMasternodeRole := true }
    else
      match ValidateCoinJoinArguments env with
      | .error e =>
        { outcome := .error e, clientman := env.clientman,
          checkedMasternodeRole := true, checkedMixingEnabled := true }
      | .ok _ =>
        if wallet.isLocked then
          { outcome := .error ⟨.RPC_WALLET_UNLOCK_NEEDED,
              "Error: Please unlock wallet for mixing with walletpassphrase first."⟩,
            clientman := env.clientman,
            checkedMasternodeRole := true, checkedMixingEnabled := true,
            checkedWalletLock := true }
        else
          let sm := env.clientman.StartMixing
          if !sm.1 then
            { outcome := .error ⟨.RPC_INTERNAL_ERROR,
                "Mixing has been started already."⟩,
              clientman := sm.2,
              checkedMasternodeRole := true, checkedMixingEnabled := true,
              checkedWalletLock := true, startMixingCalls := 1 }
          else
            let ad := env.doAutoDenom sm.2.sessions sm.2.statuses
            let cm2 : CoinJoinClientManager :=
              { fMixing := sm.2.fMixing, sessions := ad.2.1, statuses := ad.2.2 }
            { outcome := .ok (.vstr ("Mixing " ++
                (if ad.1 then "started successfully"
                 else "start failed: " ++ cm2.GetStatuses ++ ", will retry"))),
              clientman := cm2,
              checkedMasternodeRole := true, checkedMixingEnabled := true,
              checkedWalletLock := true, startMixingCalls := 1,
              doAutoDenomCalls := 1 }

/-- The `coinjoin stop` handler, translated from `src/rpc/coinjoin.cpp`
lines 158-181. -/
def coinjoin_stop (env : Env) : ExecResult :=
  match env.wallet_opt with
  | none => { outcome := .ok .vnull, clientman := env.clientman }
  | some _wallet =>
    if env.mn_activeman then
      { outcome := .error ⟨.RPC_INTERNAL_ERROR,
          "Client-side mixing is not supported on masternodes"⟩,
        clientman := env.clientman,
        checkedMasternodeRole := true }
    else
      match ValidateCoinJoinArguments env with
      | .error e =>
        { outcome := .error e, clientman := env.clientman,
          checkedMasternodeRole := true, checkedMixingEnabled := true }
      | .ok _ =>
        if !env.clientman.IsMixing then
          { outcome := .error ⟨.RPC_INTERNAL_ERROR, "No mix session to stop"⟩,
            clientman := env.clientman,
            checkedMasternodeRole := true, checkedMixingEnabled := true }
        else
          { outcome := .ok (.vstr "Mixing was stopped"),
            clientman := env.clientman.StopMixing,
            checkedMasternodeRole := true, checkedMixingEnabled := true,
            stopMixingCalls := 1 }

/-- Modelled from the spec: `CCoinJoinServer::GetJsonInfo`, the masternode
role's `getinfo()` — "{queue_size, denomination, state, entries_count} for
the locally coordinated pool". -/
def ServerPool.GetJsonInfo (p : ServerPool) : List (String × UniValue) :=
  [("queue_size", .vnum p.queue_size),
   ("denomination", .vnum p.denomination),
   ("state", .vstr p.state),
   ("entries_count", .vnum p.entries_count)]

/-- Modelled from the spec: `CCoinJoinClientOptions::GetJsonInfo`, pushing
the configuration part of the client role's `getinfo()` — enabled,
multisession, max_sessions, max_rounds, max_amount, denoms_goal,
denoms_hardcap. -/
def ClientOptions.GetJsonInfo (o : ClientOptions) : List (String × UniValue) :=
  [("enabled", .vbool o.enabled),
   ("multisession", .vbool o.multisession),
   ("max_sessions", .vnum o.max_sessions),
   ("max_rounds", .vnum o.max_rounds),
   ("max_amount", .vnum o.max_amount),
   ("denoms_goal", .vnum o.denoms_goal),
   ("denoms_hardcap", .vnum o.denoms_hardcap)]

/-- Modelled from the spec: the JSON shape of one client session inside the
manager's `GetJsonInfo` sessions array. -/
def CJSession.GetJsonInfo (s : CJSession) : UniValue :=
  .vobj [("protxhash", .vstr s.protxhash),
         ("outpoint", .vstr s.outpoint),
         ("service", .vstr s.service),
         ("denomination", .vnum s.denomination),
         ("state", .vstr s.state),
         ("entries_count", .vnum s.entries_count)]

/-- Modelled from the spec: `CCoinJoinClientManager::GetJsonInfo`, pushing
the running flag and the sessions array of the client role's
`getinfo()`. -/
def CoinJoinClientManager.GetJsonInfo (m : CoinJoinClientManager) :
    List (String × UniValue) :=
  [("running", .vbool m.fMixing),
   ("sessions", .varr (m.sessions.map CJSession.GetJsonInfo))]

/-- The `getcoinjoininfo` handler, translated from `src/rpc/coinjoin.cpp`
lines 246-281 (wallet build, so the `ENABLE_WALLET` block is present). -/
def getcoinjoininfo (env : Env) : UniValue :=
  if env.mn_activeman then
    .vobj env.serverPool.GetJsonInfo
  else
    let obj := env.options.GetJsonInfo ++ [("queue_size", .vnum env.queueSize)]
    match env.wallet_opt with
    | none => .vobj obj
    | some wallet =>
      let obj := obj ++ env.clientman.GetJsonInfo
      let legacyPart : List (String × UniValue) × String :=
        if wallet.isLegacy then
          ([("keys_left", .vnum wallet.nKeysLeftSinceAutoBackup)],
           if wallet.nKeysLeftSinceAutoBackup < COINJOIN_KEYS_THRESHOLD_WARNING
           then "WARNING: keypool is almost depleted!" else "")
        else ([], "")
      .vobj (obj ++ legacyPart.1 ++ [("warnings", .vstr legacyPart.2)])

/-- The keys of a JSON object, in insertion order (empty for non-objects). -/
def UniValue.objKeys : UniValue → List String
  | .vobj kvs => kvs.map Prod.fst
  | _ => []

/-- Key lookup inside a JSON object's key/value list. -/
def lookupKV : String → List (String × UniValue) → Option UniValue
  | _, [] => none
  | k, (k2, v) :: rest => if k = k2 then some v else lookupKV k rest

/-- Key lookup on a JSON value (none for non-objects). -/
def UniValue.getKey : UniValue → String → Option UniValue
  | .vobj kvs, k => lookupKV k kvs
  | _, _ => none

/-! ### Concrete sample data used by witnesses and counterexamples -/

/-- A sample unlocked legacy wallet. -/
def sampleWallet : Wallet :=
  { name := "w", isLocked := false, isLegacy := true,
    nKeysLeftSinceAutoBackup := 50 }

/-- A sample client manager that is not currently mixing. -/
def sampleManager : CoinJoinClientManager :=
  { fMixing := false, sessions := [], statuses := "" }

/-- Sample client options with mixing enabled. -/
def sampleOptions : ClientOptions :=
  { enabled := true, multisession := false, max_sessions := 4,
    max_rounds := 16, max_amount := 1000, denoms_goal := 50,
    denoms_hardcap := 300 }

/-- A sample masternode-side pool snapshot. -/
def sampleServerPool : ServerPool :=
  { queue_size := 0, denomination := 0, state := "IDLE", entries_count := 0 }

/-- A sample client-role request environment with a resolvable wallet. -/
def sampleEnv : Env :=
  { wallet_opt := some sampleWallet, mn_activeman := false,
    enableCoinJoinArg := true, clientman := sampleManager,
    doAutoDenom := fun s st => (true, s, st), options := sampleOptions,
    queueSize := 3, serverPool := sampleServerPool }

/-- The same environment on a masternode-role node. -/
def sampleEnvMN : Env := { sampleEnv with mn_activeman := true }

/-! ### C1 -/

/-- What it means for a control-handler run to have been refused by the
masternode-role guard before anything else happened: the role error is
thrown, the mixing-enabled and wallet-lock checks never ran, and no
manager operation was invoked. -/
def RoleRefusal (env : Env) (r : ExecResult) : Prop :=
  r.outcome = .error ⟨.RPC_INTERNAL_ERROR,
      "Client-side mixing is not supported on masternodes"⟩ ∧
  r.checkedMixingEnabled = false ∧ r.checkedWalletLock = false ∧
  r.clientman = env.clientman ∧ r.startMixingCalls = 0 ∧
  r.stopMixingCalls = 0 ∧ r.resetPoolCalls = 0 ∧ r.doAutoDenomCalls = 0

/-- C1: on a masternode-role node with a resolvable wallet, each of
`coinjoin start`, `coinjoin stop` and `coinjoin reset` throws
"Client-side mixing is not supported on masternodes" before any
mixing-enabled check, wallet-lock check, or mutation of mixing state. -/
theorem masternode_role_guard_refuses_first (env : Env) (w : Wallet)
    (hw : env.wallet_opt = some w) (hmn : env.mn_activeman = true) :
    RoleRefusal env (coinjoin_start env) ∧
    RoleRefusal env (coinjoin_stop env) ∧
    RoleRefusal env (coinjoin_reset env) := by
  refine ⟨?_, ?_, ?_⟩ <;>
    simp [RoleRefusal, coinjoin_start, coinjoin_stop, coinjoin_reset, hw, hmn]

/-- C1 witness: the guard fires on the concrete masternode environment. -/
theorem masternode_role_guard_refuses_first_witness :
    sampleEnvMN.wallet_opt = some sampleWallet ∧
    sampleEnvMN.mn_activeman = true ∧
    (RoleRefusal sampleEnvMN (coinjoin_start sampleEnvMN) ∧
     RoleRefusal sampleEnvMN (coinjoin_stop sampleEnvMN) ∧
     RoleRefusal sampleEnvMN (coinjoin_reset sampleEnvMN)) :=
  ⟨rfl, rfl, masternode_role_guard_refuses_first sampleEnvMN sampleWallet rfl rfl⟩

/-! ### C10 -/

/-- What it means for a control-handler run to have been a pure no-op that
returned the JSON null value: no error, no guard checks, no manager
operation, manager state unchanged. -/
def NullNoOp (env : Env) (r : ExecResult) : Prop :=
  r.outcome = .ok .vnull ∧
  r.checkedMasternodeRole = false ∧ r.checkedMixingEnabled = false ∧
  r.checkedWalletLock = false ∧ r.clientman = env.clientman ∧
  r.startMixingCalls = 0 ∧ r.stopMixingCalls = 0 ∧
  r.resetPoolCalls = 0 ∧ r.doAutoDenomCalls = 0

/-- C10: when no wallet can be resolved, each of `coinjoin start`,
`coinjoin stop` and `coinjoin reset` returns the null value with no error,
without performing the masternode-role or mixing-enabled checks and without
mutating any mixing state. -/
theorem no_wallet_returns_null (env : Env) (hw : env.wallet_opt = none) :
    NullNoOp env (coinjoin_start env) ∧
    NullNoOp env (coinjoin_stop env) ∧
    NullNoOp env (coinjoin_reset env) := by
  refine ⟨?_, ?_, ?_⟩ <;>
    simp [NullNoOp, coinjoin_start, coinjoin_stop, coinjoin_reset, hw]

/-- C10 witness: the no-wallet path on a concrete environment. -/
theorem no_wallet_returns_null_witness :
    ({ sampleEnv with wallet_opt := none } : Env).wallet_opt = none ∧
    (NullNoOp { sampleEnv with wallet_opt := none }
       (coinjoin_start { sampleEnv with wallet_opt := none }) ∧
     NullNoOp { sampleEnv with wallet_opt := none }
       (coinjoin_stop { sampleEnv with wallet_opt := none }) ∧
     NullNoOp { sampleEnv with wallet_opt := none }
       (coinjoin_reset { sampleEnv with wallet_opt := none })) :=
  ⟨rfl, no_wallet_returns_null { sampleEnv with wallet_opt := none } rfl⟩

/-! ### C2 -/

/-- C2: `coinjoin start` throws "Mixing has been started already." exactly
when the client manager's `StartMixing()` returns false; and after a
successful start, a second start against the resulting manager state (all
other guards passing, no intervening stop) throws that error and runs no
second automatic-denominating loop. -/
theorem start_already_iff_startmixing_false (env : Env) (w : Wallet)
    (hw : env.wallet_opt = some w) (hmn : env.mn_activeman = false)
    (hen : env.options.enabled = true) (hlock : w.isLocked = false) :
    ((coinjoin_start env).outcome = .error ⟨.RPC_INTERNAL_ERROR,
        "Mixing has been started already."⟩
      ↔ env.clientman.StartMixing.1 = false) ∧
    (env.clientman.StartMixing.1 = true →
      ∀ env2 : Env, env2.wallet_opt = some w → env2.mn_activeman = false →
        env2.options.enabled = true →
        env2.clientman = (coinjoin_start env).clientman →
        (coinjoin_start env2).outcome = .error ⟨.RPC_INTERNAL_ERROR,
          "Mixing has been started already."⟩ ∧
        (coinjoin_start env2).doAutoDenomCalls = 0 ∧
        (coinjoin_start env2).startMixingCalls = 1) := by
  constructor
  · cases hfm : env.clientman.fMixing with
    | false =>
      simp [coinjoin_start, ValidateCoinJoinArguments,
        CoinJoinClientManager.StartMixing, hw, hmn, hen, hlock, hfm]
    | true =>
      simp [coinjoin_start, ValidateCoinJoinArguments,
        CoinJoinClientManager.StartMixing, hw, hmn, hen, hlock, hfm]
  · intro hstart env2 hw2 hmn2 hen2 hcm2
    cases hfm : env.clientman.fMixing with
    | true =>
      rw [CoinJoinClientManager.StartMixing, hfm] at hstart
      simp at hstart
    | false =>
      have hfm2 : env2.clientman.fMixing = true := by
        rw [hcm2]
        simp [coinjoin_start, ValidateCoinJoinArguments,
          CoinJoinClientManager.StartMixing, hw, hmn, hen, hlock, hfm]
      simp [coinjoin_start, ValidateCoinJoinArguments,
        CoinJoinClientManager.StartMixing, hw2, hmn2, hen2, hlock, hfm2]

/-- C2 witness: starting on a fresh manager succeeds, and a second start on
the resulting state is refused without a second denominating run. -/
theorem start_already_iff_startmixing_false_witness :
    sampleEnv.wallet_opt = some sampleWallet ∧
    sampleEnv.mn_activeman = false ∧ sampleEnv.options.enabled = true ∧
    sampleWallet.isLocked = false ∧
    sampleEnv.clientman.StartMixing.1 = true ∧
    (coinjoin_start { sampleEnv with
        clientman := (coinjoin_start sampleEnv).clientman }).outcome =
      .error ⟨.RPC_INTERNAL_ERROR, "Mixing has been started already."⟩ ∧
    (coinjoin_start { sampleEnv with
        clientman := (coinjoin_start sampleEnv).clientman }).doAutoDenomCalls = 0 := by
  refine ⟨rfl, rfl, rfl, rfl, by decide, ?_, ?_⟩
  · exact ((start_already_iff_startmixing_false sampleEnv sampleWallet rfl rfl rfl
      rfl).2 (by decide) _ rfl rfl rfl rfl).1
  · exact ((start_already_iff_startmixing_false sampleEnv sampleWallet rfl rfl rfl
      rfl).2 (by decide) _ rfl rfl rfl rfl).2.1

/-! ### C3 -/

/-- C3: `coinjoin stop` throws "No mix session to stop" exactly when
`IsMixing()` is false; otherwise it calls `StopMixing()` exactly once and
returns "Mixing was stopped". -/
theorem stop_fails_iff_not_mixing (env : Env) (w : Wallet)
    (hw : env.wallet_opt = some w) (hmn : env.mn_activeman = false)
    (hen : env.options.enabled = true) :
    ((coinjoin_stop env).outcome = .error ⟨.RPC_INTERNAL_ERROR,
        "No mix session to stop"⟩
      ↔ env.clientman.IsMixing = false) ∧
    (env.clientman.IsMixing = true →
      (coinjoin_stop env).outcome = .ok (.vstr "Mixing was stopped") ∧
      (coinjoin_stop env).stopMixingCalls = 1 ∧
      (coinjoin_stop env).clientman = env.clientman.StopMixing) := by
  constructor
  · cases hfm : env.clientman.fMixing with
    | false =>
      simp [coinjoin_stop, ValidateCoinJoinArguments,
        CoinJoinClientManager.IsMixing, hw, hmn, hen, hfm]
    | true =>
      simp [coinjoin_stop, ValidateCoinJoinArguments,
        CoinJoinClientManager.IsMixing, hw, hmn, hen, hfm]
  · intro hfm
    rw [CoinJoinClientManager.IsMixing] at hfm
    simp [coinjoin_stop, ValidateCoinJoinArguments,
      CoinJoinClientManager.IsMixing, hw, hmn, hen, hfm]

/-- C3 witness: stopping a running manager succeeds once; the iff holds on
the concrete environment. -/
theorem stop_fails_iff_not_mixing_witness :
    ({ sampleEnv with clientman := { sampleManager with fMixing := true } } : Env).wallet_opt
        = some sampleWallet ∧
    ({ sampleEnv with clientman := { sampleManager with fMixing := true } } : Env).clientman.IsMixing
        = true ∧
    (coinjoin_stop { sampleEnv with
        clientman := { sampleManager with fMixing := true } }).outcome =
      .ok (.vstr "Mixing was stopped") ∧
    (coinjoin_stop { sampleEnv with
        clientman := { sampleManager with fMixing := true } }).stopMixingCalls = 1 := by
  refine ⟨rfl, rfl, ?_, ?_⟩
  · exact ((stop_fails_iff_not_mixing
      { sampleEnv with clientman := { sampleManager with fMixing := true } }
      sampleWallet rfl rfl rfl).2 rfl).1
  · exact ((stop_fails_iff_not_mixing
      { sampleEnv with clientman := { sampleManager with fMixing := true } }
      sampleWallet rfl rfl rfl).2 rfl).2.1

/-! ### C4 -/

/-- C4 counterexample: on a masternode-role node with a resolvable wallet,
`coinjoin reset` does not succeed — it throws the role error instead of
returning "Mixing was reset", so reset does not always succeed for every
invocation with a resolvable wallet. -/
theorem reset_not_always_success_counterexample :
    sampleEnvMN.wallet_opt = some sampleWallet ∧
    (coinjoin_reset sampleEnvMN).outcome =
      .error ⟨.RPC_INTERNAL_ERROR,
        "Client-side mixing is not supported on masternodes"⟩ ∧
    (coinjoin_reset sampleEnvMN).outcome ≠ .ok (.vstr "Mixing was reset") := by
  refine ⟨rfl, rfl, ?_⟩
  intro h
  rw [show (coinjoin_reset sampleEnvMN).outcome =
      .error ⟨.RPC_INTERNAL_ERROR,
        "Client-side mixing is not supported on masternodes"⟩ from rfl] at h
  exact Except.noConfusion h

/-- C4 (amended): on a client-role (non-masternode) node with mixing
enabled, `coinjoin reset` always succeeds with "Mixing was reset" and calls
`ResetPool()`; a second consecutive invocation on the resulting state also
succeeds with the same result and leaves the mixing state unchanged. -/
theorem reset_succeeds_and_idempotent (env : Env) (w : Wallet)
    (hw : env.wallet_opt = some w) (hmn : env.mn_activeman = false)
    (hen : env.options.enabled = true) :
    (coinjoin_reset env).outcome = .ok (.vstr "Mixing was reset") ∧
    (coinjoin_reset env).clientman = env.clientman.ResetPool ∧
    (∀ env2 : Env, env2.wallet_opt = some w → env2.mn_activeman = false →
      env2.options.enabled = true →
      env2.clientman = (coinjoin_reset env).clientman →
      (coinjoin_reset env2).outcome = .ok (.vstr "Mixing was reset") ∧
      (coinjoin_reset env2).clientman = (coinjoin_reset env).clientman) := by
  refine ⟨?_, ?_, ?_⟩
  · simp [coinjoin_reset, ValidateCoinJoinArguments, hw, hmn, hen]
  · simp [coinjoin_reset, ValidateCoinJoinArguments, hw, hmn, hen]
  · intro env2 hw2 hmn2 hen2 hcm2
    constructor
    · simp [coinjoin_reset, ValidateCoinJoinArguments, hw2, hmn2, hen2]
    · simp [coinjoin_reset, ValidateCoinJoinArguments, hw2, hmn2, hen2, hcm2,
        hw, hmn, hen, CoinJoinClientManager.ResetPool]

/-- C4 witness: reset succeeds on the concrete client-role environment and
a second reset on the resulting state gives the same outcome and state. -/
theorem reset_succeeds_and_idempotent_witness :
    sampleEnv.wallet_opt = some sampleWallet ∧
    sampleEnv.mn_activeman = false ∧ sampleEnv.options.enabled = true ∧
    (coinjoin_reset sampleEnv).outcome = .ok (.vstr "Mixing was reset") ∧
    (coinjoin_reset { sampleEnv with
        clientman := (coinjoin_reset sampleEnv).clientman }).outcome =
      .ok (.vstr "Mixing was reset") ∧
    (coinjoin_reset { sampleEnv with
        clientman := (coinjoin_reset sampleEnv).clientman }).clientman =
      (coinjoin_reset sampleEnv).clientman := by
  refine ⟨rfl, rfl, rfl, ?_, ?_, ?_⟩
  · exact (reset_succeeds_and_idempotent sampleEnv sampleWallet rfl rfl rfl).1
  · exact ((reset_succeeds_and_idempotent sampleEnv sampleWallet rfl rfl
      rfl).2.2 _ rfl rfl rfl rfl).1
  · exact ((reset_succeeds_and_idempotent sampleEnv sampleWallet rfl rfl
      rfl).2.2 _ rfl rfl rfl rfl).2

/-! ### C5 -/

/-- What it means for a control-handler run to have been refused by the
mixing-disabled configuration check with no state mutated: the
configuration error is thrown — distinguishing the `-enablecoinjoin=0`
cause from the internal-error cause — and no manager operation ran. -/
def DisabledRefusal (env : Env) (r : ExecResult) : Prop :=
  r.outcome = .error ⟨.RPC_INTERNAL_ERROR,
      if env.enableCoinJoinArg
      then "Mixing is disabled due to an internal error"
      else "Mixing is disabled via -enablecoinjoin=0 command line option, remove it to enable mixing again"⟩ ∧
  r.clientman = env.clientman ∧ r.checkedWalletLock = false ∧
  r.startMixingCalls = 0 ∧ r.stopMixingCalls = 0 ∧
  r.resetPoolCalls = 0 ∧ r.doAutoDenomCalls = 0

/-- C5: on a client-role node with mixing disabled, each of
`coinjoin start`, `coinjoin stop` and `coinjoin reset` is refused
immediately with no mixing state mutated, and the reason distinguishes
disabling via `-enablecoinjoin=0` from disabling due to an internal
error. -/
theorem disabled_config_refused_distinguished (env : Env) (w : Wallet)
    (hw : env.wallet_opt = some w) (hmn : env.mn_activeman = false)
    (hdis : env.options.enabled = false) :
    DisabledRefusal env (coinjoin_start env) ∧
    DisabledRefusal env (coinjoin_stop env) ∧
    DisabledRefusal env (coinjoin_reset env) := by
  refine ⟨?_, ?_, ?_⟩ <;>
  · cases harg : env.enableCoinJoinArg with
    | false =>
      simp [DisabledRefusal, coinjoin_start, coinjoin_stop, coinjoin_reset,
        ValidateCoinJoinArguments, hw, hmn, hdis, harg]
    | true =>
      simp [DisabledRefusal, coinjoin_start, coinjoin_stop, coinjoin_reset,
        ValidateCoinJoinArguments, hw, hmn, hdis, harg]

/-- A sample environment where mixing was disabled by `-enablecoinjoin=0`. -/
def sampleEnvDisabled : Env :=
  { sampleEnv with
      enableCoinJoinArg := false,
      options := { sampleOptions with enabled := false } }

/-- C5 witness: the disabled-configuration refusal on a concrete
environment where mixing was disabled by `-enablecoinjoin=0`. -/
theorem disabled_config_refused_distinguished_witness :
    sampleEnvDisabled.wallet_opt = some sampleWallet ∧
    sampleEnvDisabled.mn_activeman = false ∧
    sampleEnvDisabled.options.enabled = false ∧
    (DisabledRefusal sampleEnvDisabled (coinjoin_start sampleEnvDisabled) ∧
     DisabledRefusal sampleEnvDisabled (coinjoin_stop sampleEnvDisabled) ∧
     DisabledRefusal sampleEnvDisabled (coinjoin_reset sampleEnvDisabled)) :=
  ⟨rfl, rfl, rfl, disabled_config_refused_distinguished
    sampleEnvDisabled sampleWallet rfl rfl rfl⟩

/-! ### C6 -/

/-- C6: on a client-role node with mixing enabled, `coinjoin start` on a
locked wallet is refused with the wallet-unlock reason before
`StartMixing()` is attempted, so no mixing state is mutated. -/
theorem locked_wallet_start_refused (env : Env) (w : Wallet)
    (hw : env.wallet_opt = some w) (hmn : env.mn_activeman = false)
    (hen : env.options.enabled = true) (hlock : w.isLocked = true) :
    (coinjoin_start env).outcome = .error ⟨.RPC_WALLET_UNLOCK_NEEDED,
      "Error: Please unlock wallet for mixing with walletpassphrase first."⟩ ∧
    (coinjoin_start env).startMixingCalls = 0 ∧
    (coinjoin_start env).doAutoDenomCalls = 0 ∧
    (coinjoin_start env).clientman = env.clientman := by
  refine ⟨?_, ?_, ?_, ?_⟩ <;>
    simp [coinjoin_start, ValidateCoinJoinArguments, hw, hmn, hen, hlock]

/-- A sample locked wallet. -/
def sampleLockedWallet : Wallet := { sampleWallet with isLocked := true }

/-- A sample environment whose resolved wallet is locked. -/
def sampleEnvLocked : Env :=
  { sampleEnv with wallet_opt := some sampleLockedWallet }

/-- C6 witness: the locked-wallet refusal on a concrete environment. -/
theorem locked_wallet_start_refused_witness :
    sampleEnvLocked.wallet_opt = some sampleLockedWallet ∧
    sampleLockedWallet.isLocked = true ∧
    (coinjoin_start sampleEnvLocked).outcome =
      .error ⟨.RPC_WALLET_UNLOCK_NEEDED,
        "Error: Please unlock wallet for mixing with walletpassphrase first."⟩ ∧
    (coinjoin_start sampleEnvLocked).startMixingCalls = 0 := by
  refine ⟨rfl, rfl, ?_, ?_⟩
  · exact (locked_wallet_start_refused sampleEnvLocked sampleLockedWallet
      rfl rfl rfl rfl).1
  · exact (locked_wallet_start_refused sampleEnvLocked sampleLockedWallet
      rfl rfl rfl rfl).2.1

/-! ### C7 -/

/-- C7: on a masternode-role node, `getcoinjoininfo` returns exactly the
server-side pool's `GetJsonInfo` object, whose keys are {queue_size,
denomination, state, entries_count}; no client-only field ever appears. -/
theorem mn_info_server_fields_only (env : Env)
    (hmn : env.mn_activeman = true) :
    getcoinjoininfo env = .vobj env.serverPool.GetJsonInfo ∧
    (getcoinjoininfo env).objKeys =
      ["queue_size", "denomination", "state", "entries_count"] ∧
    (∀ k ∈ (["enabled", "multisession", "max_sessions", "max_rounds",
             "keys_left", "sessions", "warnings"] : List String),
      k ∉ (getcoinjoininfo env).objKeys) := by
  refine ⟨?_, ?_, ?_⟩
  · simp [getcoinjoininfo, hmn]
  · simp [getcoinjoininfo, hmn, ServerPool.GetJsonInfo, UniValue.objKeys]
  · intro k hk
    have hkeys : (getcoinjoininfo env).objKeys =
        ["queue_size", "denomination", "state", "entries_count"] := by
      simp [getcoinjoininfo, hmn, ServerPool.GetJsonInfo, UniValue.objKeys]
    rw [hkeys]
    fin_cases hk <;> decide

/-- C7 witness: masternode-role `getcoinjoininfo` on the concrete
environment carries only the four pool fields. -/
theorem mn_info_server_fields_only_witness :
    sampleEnvMN.mn_activeman = true ∧
    getcoinjoininfo sampleEnvMN = .vobj sampleEnvMN.serverPool.GetJsonInfo ∧
    (getcoinjoininfo sampleEnvMN).objKeys =
      ["queue_size", "denomination", "state", "entries_count"] ∧
    "enabled" ∉ (getcoinjoininfo sampleEnvMN).objKeys ∧
    "keys_left" ∉ (getcoinjoininfo sampleEnvMN).objKeys := by
  refine ⟨rfl, ?_, ?_, ?_, ?_⟩
  · exact (mn_info_server_fields_only sampleEnvMN rfl).1
  · exact (mn_info_server_fields_only sampleEnvMN rfl).2.1
  · exact (mn_info_server_fields_only sampleEnvMN rfl).2.2 "enabled" (by decide)
  · exact (mn_info_server_fields_only sampleEnvMN rfl).2.2 "keys_left" (by decide)

/-! ### C8 -/

/-- C8: when `coinjoin start` passes all guards and `StartMixing()`
succeeds, it returns "Mixing started successfully" if the following
`DoAutomaticDenominating` call returns true, and "Mixing start failed: "
followed by the manager's aggregated status string and ", will retry" if it
returns false — in both cases an ordinary return, never a thrown error. -/
theorem start_result_string_advisory (env : Env) (w : Wallet)
    (hw : env.wallet_opt = some w) (hmn : env.mn_activeman = false)
    (hen : env.options.enabled = true) (hlock : w.isLocked = false)
    (hnm : env.clientman.fMixing = false) :
    ((env.doAutoDenom env.clientman.sessions env.clientman.statuses).1 = true →
      (coinjoin_start env).outcome = .ok (.vstr "Mixing started successfully")) ∧
    ((env.doAutoDenom env.clientman.sessions env.clientman.statuses).1 = false →
      (coinjoin_start env).outcome = .ok (.vstr ("Mixing start failed: " ++
        (coinjoin_start env).clientman.GetStatuses ++ ", will retry"))) := by
  have hsm : env.clientman.StartMixing =
      (true, { env.clientman with fMixing := true }) := by
    simp [CoinJoinClientManager.StartMixing, hnm]
  constructor
  · intro had
    have h1 : (coinjoin_start env).outcome =
        .ok (.vstr ("Mixing " ++ "started successfully")) := by
      simp [coinjoin_start, ValidateCoinJoinArguments, hw, hmn, hen, hlock,
        hsm, had]
    rw [h1]
    rfl
  · intro had
    have h1 : (coinjoin_start env).outcome = .ok (.vstr ("Mixing " ++
        ("start failed: " ++
          (env.doAutoDenom env.clientman.sessions env.clientman.statuses).2.2 ++
          ", will retry"))) := by
      simp [coinjoin_start, ValidateCoinJoinArguments,
        CoinJoinClientManager.GetStatuses, hw, hmn, hen, hlock, hsm, had]
    have h2 : (coinjoin_start env).clientman.GetStatuses =
        (env.doAutoDenom env.clientman.sessions env.clientman.statuses).2.2 := by
      simp [coinjoin_start, ValidateCoinJoinArguments,
        CoinJoinClientManager.GetStatuses, hw, hmn, hen, hlock, hsm]
    rw [h1, h2, ← String.append_assoc, ← String.append_assoc]
    rfl

/-- A sample environment whose automatic-denominating run reports failure
with status "no queues". -/
def sampleEnvAutoFail : Env :=
  { sampleEnv with doAutoDenom := fun s _ => (false, s, "no queues") }

/-- C8 witness: both result strings on concrete environments. -/
theorem start_result_string_advisory_witness :
    sampleEnv.clientman.fMixing = false ∧
    (sampleEnv.doAutoDenom sampleEnv.clientman.sessions
      sampleEnv.clientman.statuses).1 = true ∧
    (coinjoin_start sampleEnv).outcome =
      .ok (.vstr "Mixing started successfully") ∧
    (sampleEnvAutoFail.doAutoDenom sampleEnvAutoFail.clientman.sessions
      sampleEnvAutoFail.clientman.statuses).1 = false ∧
    (coinjoin_start sampleEnvAutoFail).outcome =
      .ok (.vstr ("Mixing start failed: " ++
        (coinjoin_start sampleEnvAutoFail).clientman.GetStatuses ++
        ", will retry")) := by
  refine ⟨rfl, rfl, ?_, rfl, ?_⟩
  · exact (start_result_string_advisory sampleEnv sampleWallet
      rfl rfl rfl rfl rfl).1 rfl
  · exact (start_result_string_advisory sampleEnvAutoFail sampleWallet
      rfl rfl rfl rfl rfl).2 rfl

/-! ### C9 -/

/-- C9: on a client-role node with a resolvable wallet, `getcoinjoininfo`
includes `keys_left` exactly when the wallet is legacy (and then it equals
the keys-left-since-auto-backup counter), and always includes `warnings`,
equal to "WARNING: keypool is almost depleted!" exactly when the wallet is
legacy with the counter below the warning threshold and "" otherwise. -/
theorem client_info_keys_left_and_warnings (env : Env) (w : Wallet)
    (hmn : env.mn_activeman = false) (hw : env.wallet_opt = some w) :
    (("keys_left" ∈ (getcoinjoininfo env).objKeys) ↔ w.isLegacy = true) ∧
    (w.isLegacy = true →
      (getcoinjoininfo env).getKey "keys_left" =
        some (.vnum w.nKeysLeftSinceAutoBackup)) ∧
    (getcoinjoininfo env).getKey "warnings" = some (.vstr
      (if w.isLegacy = true ∧
          w.nKeysLeftSinceAutoBackup < COINJOIN_KEYS_THRESHOLD_WARNING
       then "WARNING: keypool is almost depleted!" else "")) := by
  cases hleg : w.isLegacy with
  | false =>
    refine ⟨?_, ?_, ?_⟩ <;>
      simp [getcoinjoininfo, hmn, hw, hleg, ClientOptions.GetJsonInfo,
        CoinJoinClientManager.GetJsonInfo, UniValue.objKeys, UniValue.getKey,
        lookupKV]
  | true =>
    by_cases hlt :
        w.nKeysLeftSinceAutoBackup < COINJOIN_KEYS_THRESHOLD_WARNING <;>
      refine ⟨?_, ?_, ?_⟩ <;>
        simp [getcoinjoininfo, hmn, hw, hleg, hlt, ClientOptions.GetJsonInfo,
          CoinJoinClientManager.GetJsonInfo, UniValue.objKeys, UniValue.getKey,
          lookupKV]

/-- C9 witness: the legacy-wallet fields on the concrete environment, whose
counter (50) is below the warning threshold. -/
theorem client_info_keys_left_and_warnings_witness :
    sampleEnv.mn_activeman = false ∧
    sampleEnv.wallet_opt = some sampleWallet ∧
    (("keys_left" ∈ (getcoinjoininfo sampleEnv).objKeys) ↔
      sampleWallet.isLegacy = true) ∧
    (getcoinjoininfo sampleEnv).getKey "keys_left" =
      some (.vnum sampleWallet.nKeysLeftSinceAutoBackup) ∧
    (getcoinjoininfo sampleEnv).getKey "warnings" = some (.vstr
      (if sampleWallet.isLegacy = true ∧
          sampleWallet.nKeysLeftSinceAutoBackup < COINJOIN_KEYS_THRESHOLD_WARNING
       then "WARNING: keypool is almost depleted!" else "")) := by
  refine ⟨rfl, rfl, ?_, ?_, ?_⟩
  · exact (client_info_keys_left_and_warnings sampleEnv sampleWallet rfl rfl).1
  · exact (client_info_keys_left_and_warnings sampleEnv sampleWallet
      rfl rfl).2.1 rfl
  · exact (client_info_keys_left_and_warnings sampleEnv sampleWallet
      rfl rfl).2.2
